import Mathlib

/-!
Verification development for the anomaly-detection and driver-attribution
engine of the Executive-Operational-Intelligence repository
(`ai/anomaly.py` and `ai/drivers.py`).

Modelling conventions of this shallow embedding:

* Python floats are idealised as exact rationals (`ℚ`); the one genuinely
  irrational quantity — the population standard deviation used as fallback
  denominator in the anomaly score — lives in `ℝ` via `Real.sqrt`, so the
  anomaly score is an `ℝ`.
* ISO date strings are modelled as integers/naturals (the string order on
  ISO dates is the chronological order, so nothing is lost).
* The SQLite connection is modelled explicitly: the KPI fact table, the
  scenario registry and the anomaly table are lists carried in a `DB`
  record; `recompute` returns its output list together with the updated
  `DB`.  The wall clock (`datetime.now`) is an explicit `now` argument.
* `pandas`/`numpy` aggregates (`median`, `std(ddof=0)`, `round`,
  `sort_values`, `groupby`, outer `merge`) are reimplemented exactly on the
  idealised numbers; `sort_values` is modelled by a stable comparison sort.
-/

/-- Stable insertion of `a` into `l`, placing `a` before the first element
`b` with `le a b`. -/
def insertBy {α : Type} (le : α → α → Bool) (a : α) : List α → List α
  | [] => [a]
  | b :: t => if le a b then a :: b :: t else b :: insertBy le a t

/-- Stable comparison sort (insertion sort); models `pandas.sort_values`
by a key order. -/
def sortBy {α : Type} (le : α → α → Bool) : List α → List α
  | [] => []
  | a :: t => insertBy le a (sortBy le t)

/-- Mean of a list of rationals (`0` on the empty list, matching the
`0/0 = 0` convention of `ℚ`; the sources never take the mean of an empty
group). -/
def meanQ (l : List ℚ) : ℚ := l.sum / l.length

/-- Median as computed by `numpy.median` / `pandas.Series.median`: sort,
take the middle element for odd length, the average of the two middle
elements for even length. -/
def median (l : List ℚ) : ℚ :=
  let s := sortBy (fun a b => decide (a ≤ b)) l
  if l.length % 2 = 1 then s.getD (l.length / 2) 0
  else (s.getD (l.length / 2 - 1) 0 + s.getD (l.length / 2) 0) / 2

/-- Population variance (`ddof = 0`), the square of
`pandas.Series.std(ddof=0)`. -/
def popVar (l : List ℚ) : ℚ :=
  ((l.map (fun x => (x - meanQ l) ^ 2)).sum) / l.length

/-- Round-half-to-even on `ℚ`, the rounding mode of Python `round`. -/
def roundHalfEvenQ (q : ℚ) : ℤ :=
  let f := ⌊q⌋
  if q - f < 1/2 then f
  else if 1/2 < q - f then f + 1
  else if f % 2 = 0 then f else f + 1

/-- Python `round(x, n)` on exact rationals. -/
def pyRoundQ (n : ℕ) (q : ℚ) : ℚ := (roundHalfEvenQ (q * 10 ^ n) : ℚ) / 10 ^ n

/-- Round-half-to-even on `ℝ`. -/
noncomputable def roundHalfEvenR (x : ℝ) : ℤ :=
  let f := ⌊x⌋
  if x - f < 1/2 then f
  else if 1/2 < x - f then f + 1
  else if f % 2 = 0 then f else f + 1

/-- Python `round(x, n)` on the idealised reals (used for the anomaly
score, which may involve a square root). -/
noncomputable def pyRound (n : ℕ) (x : ℝ) : ℝ := (roundHalfEvenR (x * 10 ^ n) : ℝ) / 10 ^ n

/-- One row of the `fact_kpi_daily` table. -/
structure FactRow where
  kpi_name : String
  date : ℕ
  value : ℚ
deriving DecidableEq, Repr

/-- One row of the `scenario_registry` table (`kpi_name` is nullable in
the schema, and `_load_scenario_lookup` also skips empty strings). -/
structure ScenarioRow where
  scenario_tag : String
  scenario_date : ℕ
  kpi_name : Option String
deriving DecidableEq, Repr

/-- One row of the `anomalies` table, as built by `recompute_anomalies`. -/
structure AnomalyRow where
  kpi_name : String
  date : ℕ
  value : ℚ
  baseline : ℚ
  score : ℝ
  status : String
  scenario_tag : Option String
  created_at : String

/-- Parameters of `recompute_anomalies` (defaults in the source:
`threshold = 3.0`, `window_days = 14`, `min_history = 14`,
`kpi_names = None`). -/
structure Params where
  threshold : ℚ
  window_days : ℕ
  min_history : ℕ
  kpi_names : Option (List String)

/-- The store visible to `recompute_anomalies`. -/
structure DB where
  fact_kpi_daily : List FactRow
  scenario_registry : List ScenarioRow
  anomalies : List AnomalyRow

/-- `_load_scenario_lookup` followed by `.get((kpi_name, date))`: the tag
of the last registry row with a truthy `kpi_name` matching the key
(later rows overwrite earlier ones in the Python dict). -/
def scenarioLookup (rows : List ScenarioRow) (kpi : String) (d : ℕ) : Option String :=
  rows.foldl
    (fun acc r =>
      match r.kpi_name with
      | some s => if s ≠ "" ∧ s = kpi ∧ r.scenario_date = d then some r.scenario_tag else acc
      | none => acc)
    none

/-- Key order of `ORDER BY kpi_name, date`. -/
def factLe (a b : FactRow) : Bool :=
  decide (a.kpi_name < b.kpi_name) ||
    (decide (a.kpi_name = b.kpi_name) && decide (a.date ≤ b.date))

/-- The `SELECT kpi_name, date, value FROM fact_kpi_daily [WHERE kpi_name
IN (...)] ORDER BY kpi_name, date` query.  An empty filter list is falsy
in Python (`if kpi_names:`), hence behaves like no filter. -/
def queryFacts (facts : List FactRow) (kpiNames : Option (List String)) : List FactRow :=
  let filtered :=
    match kpiNames with
    | some ks => if ks = [] then facts else facts.filter (fun r => decide (r.kpi_name ∈ ks))
    | none => facts
  sortBy factLe filtered

/-- The trailing history slice `values.iloc[max(0, idx - window_days):idx]`
(`ℕ` subtraction is truncated, matching `max(0, ·)`). -/
def historyAt (series : List FactRow) (w i : ℕ) : List FactRow :=
  (series.take i).drop (i - w)

/-- The same slice on a plain value series, as the specification phrases
it: the observations at indices `[max(0, i - window_days), i)`. -/
def windowAt (vals : List ℚ) (w i : ℕ) : List ℚ :=
  (vals.take i).drop (i - w)

/-- The robust anomaly score of `recompute_anomalies`: deviation from the
window median, scaled by `1.4826 * MAD`, falling back to the population
standard deviation and then to `1e-9` when the spread degenerates. -/
noncomputable def rawScore (hist : List ℚ) (cur : ℚ) : ℝ :=
  let baseline := median hist
  let mad := median (hist.map fun v => |v - baseline|)
  if mad = 0 then
    let std := Real.sqrt ((popVar hist : ℚ) : ℝ)
    let denom := if 0 < std then std else 1e-9
    |(cur : ℝ) - (baseline : ℝ)| / denom
  else
    |(cur : ℝ) - (baseline : ℝ)| / (1.4826 * (mad : ℝ))

/-- Default row used for the (in practice always in-range) positional
access `values.iloc[idx]`. -/
def defaultFactRow : FactRow := ⟨"", 0, 0⟩

open Classical in
/-- One iteration of the scoring loop of `recompute_anomalies` at index
`i` of a single KPI's date-sorted series: `none` when the index is
skipped or not flagged, `some record` when flagged. -/
noncomputable def scoreIndex (p : Params) (scens : List ScenarioRow) (now : String)
    (k : String) (series : List FactRow) (i : ℕ) : Option AnomalyRow :=
  if i < p.min_history then none
  else
    let hist := historyAt series p.window_days i
    if hist.length < p.min_history then none
    else
      let cur := series.getD i defaultFactRow
      let histV := hist.map FactRow.value
      let s := rawScore histV cur.value
      if (p.threshold : ℝ) < s then
        some
          { kpi_name := k
            date := cur.date
            value := pyRoundQ 4 cur.value
            baseline := pyRoundQ 4 (median histV)
            score := pyRound 4 s
            status := "open"
            scenario_tag := scenarioLookup scens k cur.date
            created_at := now }
      else none

/-- Date-sorted sub-series of one KPI (`groupby("kpi_name")` group,
re-sorted by `sort_values("date")`). -/
def seriesOf (rows : List FactRow) (k : String) : List FactRow :=
  sortBy (fun a b => decide (a.date ≤ b.date)) (rows.filter (fun r => decide (r.kpi_name = k)))

/-- Distinct KPI names in first-occurrence order (the rows are already
sorted by KPI, so this is the sorted group order of `groupby`). -/
def kpiList (rows : List FactRow) : List String :=
  (rows.map FactRow.kpi_name).dedup

/-- The full list of flagged anomaly records produced by the scoring
loops of `recompute_anomalies` over an already-queried frame. -/
noncomputable def recomputeOut (rows : List FactRow) (scens : List ScenarioRow)
    (p : Params) (now : String) : List AnomalyRow :=
  (kpiList rows).flatMap fun k =>
    (List.range (seriesOf rows k).length).filterMap
      (scoreIndex p scens now k (seriesOf rows k))

/-- `recompute_anomalies`: query the (possibly KPI-filtered) series; on an
empty frame return `[]` immediately (before any store mutation);
otherwise score every series, then `DELETE FROM anomalies` and bulk-insert
the flagged rows.  Returns the output list and the updated store. -/
noncomputable def recompute (db : DB) (p : Params) (now : String) :
    List AnomalyRow × DB :=
  let frame := queryFacts db.fact_kpi_daily p.kpi_names
  if frame = [] then ([], db)
  else
    let out := recomputeOut frame db.scenario_registry p now
    (out, { db with anomalies := out })

/-- A `(segment, numerator, denominator)` row returned by the per-dimension
aggregate queries of `ai/drivers.py` (`segment` is nullable before the
`fillna("Unknown")` defaulting). -/
structure SegRow where
  segment : Option String
  numerator : ℚ
  denominator : ℚ
deriving DecidableEq, Repr

/-- `_safe_rate`: a ratio that is `0` when the denominator is `0`. -/
def safe_rate (n d : ℚ) : ℚ := if d = 0 then 0 else n / d

/-- `fillna("Unknown").astype(str)` applied to a segment label. -/
def segKey (r : SegRow) : String := r.segment.getD "Unknown"

/-- String key order used to model the lexicographic ordering of grouped /
outer-merged keys in pandas. -/
def strLe (a b : String) : Bool := decide (a < b) || decide (a = b)

/-- `baseline_df.groupby("segment")[["numerator", "denominator"]].mean()`:
per-segment mean of the daily aggregates, keys in sorted order. -/
def groupMeanSeg (rows : List SegRow) : List (String × ℚ × ℚ) :=
  let keyed := rows.map (fun r => (segKey r, r.numerator, r.denominator))
  let segs := sortBy strLe ((keyed.map (fun x => x.1)).dedup)
  segs.map fun s =>
    let g := keyed.filter (fun x => decide (x.1 = s))
    (s, meanQ (g.map (fun x => x.2.1)), meanQ (g.map (fun x => x.2.2)))

/-- One row of the outer merge of the anomaly-day aggregates with the
grouped baseline aggregates, with absent sides zero-filled
(`merge(..., how="outer").fillna(0.0)`). -/
structure MergedSeg where
  segment : String
  a_num : ℚ
  a_den : ℚ
  b_num : ℚ
  b_den : ℚ
deriving DecidableEq, Repr

/-- The outer merge on `segment`: every anomaly row paired with its
baseline aggregate (zero-filled when absent), plus baseline-only segments
zero-filled on the anomaly side, sorted by the join key as pandas does
for outer joins. -/
def mergeOuter (a : List SegRow) (bg : List (String × ℚ × ℚ)) : List MergedSeg :=
  let left := a.map fun r =>
    match bg.find? (fun x => decide (x.1 = segKey r)) with
    | some x => MergedSeg.mk (segKey r) r.numerator r.denominator x.2.1 x.2.2
    | none => MergedSeg.mk (segKey r) r.numerator r.denominator 0 0
  let right :=
    (bg.filter (fun x => !(a.any (fun r => decide (segKey r = x.1))))).map fun x =>
      MergedSeg.mk x.1 0 0 x.2.1 x.2.2
  sortBy (fun u v => strLe u.segment v.segment) (left ++ right)

/-- The `supporting_stats` dict of a rate-KPI driver row. -/
structure RateStats where
  anomaly_numerator : ℚ
  anomaly_denominator : ℚ
  baseline_numerator : ℚ
  baseline_denominator : ℚ
  anomaly_rate : ℚ
  baseline_rate : ℚ
deriving DecidableEq, Repr

/-- The `supporting_stats` dict of a data-quality driver row. -/
structure DQStats where
  anomaly_missing_delivered : ℚ
  anomaly_delivered_jobs : ℚ
  baseline_missing_delivered : ℚ
  baseline_delivered_jobs : ℚ
  anomaly_duplicate_rate : ℚ
  baseline_duplicate_rate : ℚ
  anomaly_penalty : ℚ
  baseline_penalty : ℚ
deriving DecidableEq, Repr

/-- The two shapes of `supporting_stats` appearing in driver rows. -/
inductive StatsBlob where
  | rate (s : RateStats)
  | dq (s : DQStats)
deriving DecidableEq, Repr

/-- A driver row dict.  `driver_score` is `none` for rows from which the
column was dropped (evidence `top_rows`) and for data-quality rows, which
never carry one. -/
structure DriverRow where
  dimension : String
  segment : String
  delta_abs : ℚ
  delta_pct : Option ℚ
  contribution_share : ℚ
  supporting_stats : StatsBlob
  driver_score : Option ℚ
deriving DecidableEq, Repr

/-- Total numerator delta of a dimension: anomaly-side numerator sum minus
baseline-side numerator sum over the merged segment set. -/
def dimTotalDelta (a : List SegRow) (b : List SegRow) : ℚ :=
  let merged := mergeOuter a (groupMeanSeg b)
  (merged.map (fun m => m.a_num)).sum - (merged.map (fun m => m.b_num)).sum

/-- The driver row built from one merged segment in `_build_driver_rows`. -/
def driverRowOf (dimension : String) (total_num_delta : ℚ) (m : MergedSeg) : DriverRow :=
  let anomaly_rate := safe_rate m.a_num m.a_den
  let baseline_rate := safe_rate m.b_num m.b_den
  let delta_abs := anomaly_rate - baseline_rate
  let numerator_delta := m.a_num - m.b_num
  let contribution_share := if total_num_delta = 0 then 0 else numerator_delta / total_num_delta
  { dimension := dimension
    segment := m.segment
    delta_abs := pyRoundQ 6 delta_abs
    delta_pct := if 0 < baseline_rate then some (pyRoundQ 4 (delta_abs / baseline_rate * 100)) else none
    contribution_share := pyRoundQ 6 contribution_share
    supporting_stats := .rate
      { anomaly_numerator := pyRoundQ 4 m.a_num
        anomaly_denominator := pyRoundQ 4 m.a_den
        baseline_numerator := pyRoundQ 4 m.b_num
        baseline_denominator := pyRoundQ 4 m.b_den
        anomaly_rate := pyRoundQ 6 anomaly_rate
        baseline_rate := pyRoundQ 6 baseline_rate }
    driver_score := some (|numerator_delta| * max (1/100) |delta_abs|) }

/-- Descending key order `(driver_score, contribution_share)` used for a
dimension's evidence `top_rows`. -/
def evLe (u v : DriverRow) : Bool :=
  decide (v.driver_score.getD 0 < u.driver_score.getD 0) ||
    (decide (u.driver_score.getD 0 = v.driver_score.getD 0) &&
      decide (v.contribution_share ≤ u.contribution_share))

/-- Drop the `driver_score` column (`drop(columns=["driver_score"])`). -/
def dropDriverScore (r : DriverRow) : DriverRow := { r with driver_score := none }

/-- `_build_driver_rows`: returns the full per-segment row list and the
dimension's evidence `top_rows` (top `top_n` by `(driver_score,
contribution_share)` descending, with `driver_score` dropped). -/
def build_driver_rows (dimension : String) (a : List SegRow) (b : List SegRow)
    (top_n : ℕ) : List DriverRow × List DriverRow :=
  if a = [] ∧ b = [] then ([], [])
  else
    let merged := mergeOuter a (groupMeanSeg b)
    let rows := merged.map (driverRowOf dimension (dimTotalDelta a b))
    (rows, ((sortBy evLe rows).take top_n).map dropDriverScore)

/-- The declared dimensions of `_dimension_configs_for_kpi`, in source
order.  The SQL text of each `DimensionQueryConfig` (join path, numerator,
denominator, segment expression) parameterises the external store, which
this embedding models as the `DriversConn` oracle keyed by KPI and
dimension; only the dimension names and their order are observable in the
claims. -/
def dimension_configs_for_kpi (kpi : String) : List String :=
  if kpi = "sla_breach_rate_pct" then
    ["site", "customer_tier", "category", "incident_type", "carrier", "product_family"]
  else if kpi = "exception_rate_per_100_jobs" then
    ["site", "customer_tier", "category", "incident_type", "carrier", "product_family"]
  else []

/-- One row of the data-quality aggregate queries. -/
structure DQRow where
  segment : String
  missing_delivered : ℚ
  delivered_jobs : ℚ
  duplicate_rate : ℚ
deriving DecidableEq, Repr

/-- The external store as seen by `ai/drivers.py`: each aggregate query is
an oracle from its parameters to its result rows. -/
structure DriversConn where
  rateAnomaly : String → String → ℤ → List SegRow
  rateBaseline : String → String → ℤ → ℤ → List SegRow
  dqAnomaly : ℤ → List DQRow
  dqBaseline : ℤ → ℤ → List DQRow

/-- An evidence entry (dimension, query parameters, top rows); the SQL
text accompanying it in the Python dict is a fixed function of the KPI and
dimension and is carried by the oracle, not repeated here. -/
structure EvidenceEntry where
  dimension : String
  anomaly_params : List ℤ
  baseline_params : List ℤ
  top_rows : List DriverRow
deriving DecidableEq, Repr

/-- Result shape of `compute_top_drivers`. -/
structure AttrResult where
  drivers : List DriverRow
  evidence : List EvidenceEntry
deriving DecidableEq, Repr

/-- The per-dimension loop body of `_analyze_rate_kpi`: row list and
evidence entry for every configured dimension. -/
def rateDimResults (conn : DriversConn) (kpi : String) (target : ℤ)
    (baseline_days : ℕ) : List (List DriverRow × EvidenceEntry) :=
  let bstart := target - baseline_days
  let bend := target - 1
  (dimension_configs_for_kpi kpi).map fun dim =>
    let adf := conn.rateAnomaly kpi dim target
    let bdf := conn.rateBaseline kpi dim bstart bend
    let rt := build_driver_rows dim adf bdf 5
    (rt.1, ⟨dim, [target], [bstart, bend], rt.2⟩)

/-- The pooled `all_rows` of `_analyze_rate_kpi`. -/
def rateAllRows (conn : DriversConn) (kpi : String) (target : ℤ)
    (baseline_days : ℕ) : List DriverRow :=
  ((rateDimResults conn kpi target baseline_days).map (fun x => x.1)).flatten

/-- Descending lexicographic order on
`(rank_score, contribution_share, delta_abs)` with
`rank_score = |contribution_share| * |delta_abs|`, used for the final
cross-dimension ranking. -/
def rankLe (u v : DriverRow) : Bool :=
  let ku := |u.contribution_share| * |u.delta_abs|
  let kv := |v.contribution_share| * |v.delta_abs|
  decide (kv < ku) ||
    (decide (ku = kv) &&
      (decide (v.contribution_share < u.contribution_share) ||
        (decide (u.contribution_share = v.contribution_share) &&
          decide (v.delta_abs ≤ u.delta_abs))))

/-- `_analyze_rate_kpi`. -/
def analyze_rate_kpi (conn : DriversConn) (kpi : String) (target : ℤ)
    (baseline_days : ℕ) (top_n : ℕ) : AttrResult :=
  let parts : List (List DriverRow × EvidenceEntry) := rateDimResults conn kpi target baseline_days
  let all_rows : List DriverRow := (parts.map (fun x => x.1)).flatten
  let evidence : List EvidenceEntry := parts.map (fun x => x.2)
  if all_rows = [] then ⟨[], evidence⟩
  else
    let positive : List DriverRow := all_rows.filter fun r =>
      decide (0 < r.delta_abs) && decide (0 < r.contribution_share)
    let ranked : List DriverRow := if positive = [] then all_rows else positive
    ⟨(sortBy rankLe ranked).take top_n, evidence⟩

/-- Group-mean of the baseline data-quality aggregates by segment. -/
def groupMeanDQ (rows : List DQRow) : List (String × ℚ × ℚ × ℚ) :=
  let segs := sortBy strLe ((rows.map (fun r => r.segment)).dedup)
  segs.map fun s =>
    let g := rows.filter (fun r => decide (r.segment = s))
    (s, meanQ (g.map (fun r => r.missing_delivered)),
        meanQ (g.map (fun r => r.delivered_jobs)),
        meanQ (g.map (fun r => r.duplicate_rate)))

/-- Merged anomaly/baseline data-quality aggregates per segment. -/
structure DQMerged where
  segment : String
  a_missing : ℚ
  a_delivered : ℚ
  a_dup : ℚ
  b_missing : ℚ
  b_delivered : ℚ
  b_dup : ℚ
deriving DecidableEq, Repr

/-- Outer merge for the data-quality path, zero-filled. -/
def mergeOuterDQ (a : List DQRow) (bg : List (String × ℚ × ℚ × ℚ)) : List DQMerged :=
  let left := a.map fun r =>
    match bg.find? (fun x => decide (x.1 = r.segment)) with
    | some x => DQMerged.mk r.segment r.missing_delivered r.delivered_jobs r.duplicate_rate x.2.1 x.2.2.1 x.2.2.2
    | none => DQMerged.mk r.segment r.missing_delivered r.delivered_jobs r.duplicate_rate 0 0 0
  let right :=
    (bg.filter (fun x => !(a.any (fun r => decide (r.segment = x.1))))).map fun x =>
      DQMerged.mk x.1 0 0 0 x.2.1 x.2.2.1 x.2.2.2
  sortBy (fun u v => strLe u.segment v.segment) (left ++ right)

/-- The driver row built from one merged segment in
`_analyze_data_quality` (before contribution renormalisation). -/
def dqRowOf (m : DQMerged) : DriverRow :=
  let a_missing_rate := safe_rate m.a_missing m.a_delivered
  let b_missing_rate := safe_rate m.b_missing m.b_delivered
  let anomaly_penalty := a_missing_rate * 70 + m.a_dup * 30
  let baseline_penalty := b_missing_rate * 70 + m.b_dup * 30
  let delta_abs := anomaly_penalty - baseline_penalty
  { dimension := "site"
    segment := m.segment
    delta_abs := pyRoundQ 6 delta_abs
    delta_pct := if 0 < baseline_penalty then some (pyRoundQ 4 (delta_abs / baseline_penalty * 100)) else none
    contribution_share := 0
    supporting_stats := .dq
      { anomaly_missing_delivered := pyRoundQ 2 m.a_missing
        anomaly_delivered_jobs := pyRoundQ 2 m.a_delivered
        baseline_missing_delivered := pyRoundQ 2 m.b_missing
        baseline_delivered_jobs := pyRoundQ 2 m.b_delivered
        anomaly_duplicate_rate := pyRoundQ 6 m.a_dup
        baseline_duplicate_rate := pyRoundQ 6 m.b_dup
        anomaly_penalty := pyRoundQ 6 anomaly_penalty
        baseline_penalty := pyRoundQ 6 baseline_penalty }
    driver_score := none }

/-- Descending key order `(contribution_share, delta_abs)` used for the
data-quality ranking. -/
def dqLe (u v : DriverRow) : Bool :=
  decide (v.contribution_share < u.contribution_share) ||
    (decide (u.contribution_share = v.contribution_share) &&
      decide (v.delta_abs ≤ u.delta_abs))

/-- `_analyze_data_quality`: composite-penalty rows per site, contribution
shares renormalised over the positive deltas only (with the `or 1.0`
guard when their sum is zero), and a single evidence entry. -/
def analyze_data_quality (conn : DriversConn) (target : ℤ) (baseline_days : ℕ)
    (top_n : ℕ) : AttrResult :=
  let bstart := target - baseline_days
  let bend := target - 1
  let adf := conn.dqAnomaly target
  let bdf := conn.dqBaseline bstart bend
  let merged : List DQMerged := mergeOuterDQ adf (groupMeanDQ bdf)
  let rows0 : List DriverRow := merged.map dqRowOf
  let rows : List DriverRow :=
    if rows0 = [] then rows0
    else
      let s : ℚ := (rows0.map (fun r => max 0 r.delta_abs)).sum
      let total : ℚ := if s = 0 then 1 else s
      rows0.map fun r => { r with contribution_share := pyRoundQ 6 (max 0 r.delta_abs / total) }
  let drivers : List DriverRow := if rows = [] then [] else (sortBy dqLe rows).take top_n
  ⟨drivers, [⟨"site", [target], [bstart, bend], drivers⟩]⟩

/-- `compute_top_drivers`: dispatch on the closed set of supported KPIs. -/
def compute_top_drivers (conn : DriversConn) (kpi : String) (target : ℤ)
    (baseline_days : ℕ) (top_n : ℕ) : AttrResult :=
  if kpi = "sla_breach_rate_pct" ∨ kpi = "exception_rate_per_100_jobs" then
    analyze_rate_kpi conn kpi target baseline_days top_n
  else if kpi = "data_quality_score" then
    analyze_data_quality conn target baseline_days top_n
  else ⟨[], []⟩

/-- A KPI is supported by the attribution engine when `compute_top_drivers`
has a dedicated path for it (the two rate KPIs and the data-quality KPI,
whose single `site` dimension is declared inline in
`_analyze_data_quality`). -/
def supportedKPI (kpi : String) : Prop :=
  kpi = "sla_breach_rate_pct" ∨ kpi = "exception_rate_per_100_jobs" ∨ kpi = "data_quality_score"

instance (kpi : String) : Decidable (supportedKPI kpi) := by
  unfold supportedKPI; infer_instance

/-- The anomaly score the scorer computes for index `i` of a date-sorted
series (the `score` local of the loop body). -/
noncomputable def scoreAt (series : List FactRow) (w i : ℕ) : ℝ :=
  rawScore ((historyAt series w i).map FactRow.value) ((series.getD i defaultFactRow).value)

/-- An anomaly record with the `created_at` column projected away. -/
structure AnomalyCore where
  kpi_name : String
  date : ℕ
  value : ℚ
  baseline : ℚ
  score : ℝ
  status : String
  scenario_tag : Option String

/-- Forget the `created_at` field of an anomaly record. -/
def eraseCreated (r : AnomalyRow) : AnomalyCore :=
  ⟨r.kpi_name, r.date, r.value, r.baseline, r.score, r.status, r.scenario_tag⟩

/-- Two-observation single-KPI store used as a concrete scoring run. -/
def dbEx : DB := ⟨[⟨"a", 0, 0⟩, ⟨"a", 1, 1⟩], [], []⟩

/-- Aggressive parameters under which `dbEx` flags its second day. -/
def pEx : Params := ⟨0, 1, 1, none⟩

/-- A pre-existing anomaly record for KPI `"b"`. -/
noncomputable def rB : AnomalyRow := ⟨"b", 0, 0, 0, 0, "open", none, "t0"⟩

/-- Store holding facts only for KPI `"a"` while the anomaly table holds a
record for KPI `"b"`. -/
noncomputable def dbC1 : DB := ⟨[⟨"a", 0, 0⟩], [], [rB]⟩

/-- Default scoring parameters restricted to KPI `"a"` (a non-empty
filter that excludes `"b"`). -/
def pC1 : Params := ⟨3, 14, 14, some ["a"]⟩

/-- Store with an empty KPI fact table but a non-empty anomaly table. -/
noncomputable def dbC4 : DB := ⟨[], [], [rB]⟩

/-- Default, unfiltered scoring parameters. -/
def pC4 : Params := ⟨3, 14, 14, none⟩

/-- Oracle connection whose every aggregate query returns no rows. -/
def connEmpty : DriversConn := ⟨fun _ _ _ => [], fun _ _ _ _ => [], fun _ => [], fun _ _ => []⟩

/-- Oracle connection returning one anomaly-day row per dimension and no
baseline rows. -/
def connOne : DriversConn :=
  ⟨fun _ _ _ => [⟨some "X", 1, 1⟩], fun _ _ _ _ => [], fun _ => [], fun _ _ => []⟩

/-- The record `dbEx`/`pEx` flags on day 1, with the run's clock reading. -/
noncomputable def rEx (now : String) : AnomalyRow :=
  ⟨"a", 1, 1, 0, pyRound 4 (rawScore [0] 1), "open", none, now⟩

/-- Three-observation series used to exercise the score formula. -/
def seriesEx : List FactRow := [⟨"a", 0, 0⟩, ⟨"a", 1, 2⟩, ⟨"a", 2, 3⟩]

/-- The MAD of a window: median of absolute deviations from the window
median. -/
def madOf (vals : List ℚ) : ℚ := median (vals.map fun v => |v - median vals|)

/-- Population standard deviation (`std(ddof=0)`), as a real number. -/
noncomputable def popStd (vals : List ℚ) : ℝ := Real.sqrt ((popVar vals : ℚ) : ℝ)

/-- The current observation `values.iloc[idx]["value"]`. -/
def curValue (series : List FactRow) (i : ℕ) : ℚ := (series.getD i defaultFactRow).value

theorem mem_insertBy {α : Type} (le : α → α → Bool) (a : α) (l : List α) (x : α) :
    x ∈ insertBy le a l ↔ x = a ∨ x ∈ l := by
  induction l with
  | nil => simp [insertBy]
  | cons b t ih =>
    by_cases h : le a b = true
    · simp [insertBy, h]
    · simp only [insertBy, h, if_neg, Bool.not_eq_true] at *
      simp [ih]
      tauto

theorem mem_sortBy {α : Type} (le : α → α → Bool) (l : List α) (x : α) :
    x ∈ sortBy le l ↔ x ∈ l := by
  induction l with
  | nil => simp [sortBy]
  | cons a t ih => simp [sortBy, mem_insertBy, ih]

theorem getD_nonneg {l : List ℚ} (h : ∀ x ∈ l, 0 ≤ x) (n : ℕ) : 0 ≤ l.getD n 0 := by
  rcases lt_or_le n l.length with hn | hn
  · rw [List.getD_eq_getElem _ _ hn]
    exact h _ (List.getElem_mem hn)
  · rw [List.getD_eq_default _ _ hn]

theorem median_nonneg {l : List ℚ} (h : ∀ x ∈ l, 0 ≤ x) : 0 ≤ median l := by
  have hs : ∀ x ∈ sortBy (fun a b => decide (a ≤ b)) l, (0:ℚ) ≤ x := by
    intro x hx
    exact h x ((mem_sortBy _ l x).mp hx)
  unfold median
  split
  · exact getD_nonneg hs _
  · have h1 := getD_nonneg hs (l.length / 2 - 1)
    have h2 := getD_nonneg hs (l.length / 2)
    linarith

theorem popVar_nonneg (l : List ℚ) : 0 ≤ popVar l := by
  unfold popVar
  apply div_nonneg
  · apply List.sum_nonneg
    intro x hx
    rcases List.mem_map.mp hx with ⟨y, _, rfl⟩
    positivity
  · exact_mod_cast Nat.zero_le _

theorem rawScore_nonneg (hist : List ℚ) (cur : ℚ) : 0 ≤ rawScore hist cur := by
  have hmad : (0:ℚ) ≤ median (hist.map fun v => |v - median hist|) := by
    apply median_nonneg
    intro x hx
    rcases List.mem_map.mp hx with ⟨y, _, rfl⟩
    exact abs_nonneg _
  unfold rawScore
  dsimp only
  split
  · split
    · exact div_nonneg (abs_nonneg _) (Real.sqrt_nonneg _)
    · apply div_nonneg (abs_nonneg _)
      norm_num
  · apply div_nonneg (abs_nonneg _)
    have : (0:ℝ) ≤ (median (hist.map fun v => |v - median hist|) : ℝ) := by exact_mod_cast hmad
    nlinarith

theorem roundHalfEvenR_nonneg {x : ℝ} (h : 0 ≤ x) : (0:ℤ) ≤ roundHalfEvenR x := by
  have hf : (0:ℤ) ≤ ⌊x⌋ := Int.floor_nonneg.mpr h
  unfold roundHalfEvenR
  dsimp only
  split
  · exact hf
  · split
    · omega
    · split
      · exact hf
      · omega

theorem pyRound_nonneg (n : ℕ) {x : ℝ} (h : 0 ≤ x) : 0 ≤ pyRound n x := by
  unfold pyRound
  apply div_nonneg
  · exact_mod_cast roundHalfEvenR_nonneg (by positivity)
  · positivity

theorem filterMap_sublist {α β : Type} (f g : α → Option β)
    (h : ∀ a b, f a = some b → g a = some b) (l : List α) :
    (l.filterMap f).Sublist (l.filterMap g) := by
  induction l with
  | nil => simp
  | cons a t ih =>
    rcases hfa : f a with _ | b
    · rcases hga : g a with _ | c
      · simpa [List.filterMap_cons, hfa, hga] using ih
      · simp only [List.filterMap_cons, hfa, hga]
        exact ih.trans (List.sublist_cons_self c _)
    · have hga : g a = some b := h a b hfa
      simp only [List.filterMap_cons, hfa, hga]
      exact ih.cons₂ b

theorem flatMap_sublist {α β : Type} (f g : α → List β)
    (h : ∀ a, (f a).Sublist (g a)) (l : List α) :
    (l.flatMap f).Sublist (l.flatMap g) := by
  induction l with
  | nil => simp
  | cons a t ih =>
    simpa [List.flatMap_cons] using (h a).append ih

theorem scoreIndex_eq_some {p : Params} {scens : List ScenarioRow} {now k : String}
    {series : List FactRow} {i : ℕ} {r : AnomalyRow}
    (h : scoreIndex p scens now k series i = some r) :
    p.min_history ≤ i ∧
    p.min_history ≤ (historyAt series p.window_days i).length ∧
    (p.threshold : ℝ) < scoreAt series p.window_days i ∧
    r = { kpi_name := k
          date := (series.getD i defaultFactRow).date
          value := pyRoundQ 4 (series.getD i defaultFactRow).value
          baseline := pyRoundQ 4 (median ((historyAt series p.window_days i).map FactRow.value))
          score := pyRound 4 (scoreAt series p.window_days i)
          status := "open"
          scenario_tag := scenarioLookup scens k (series.getD i defaultFactRow).date
          created_at := now } := by
  unfold scoreIndex at h
  dsimp only at h
  split_ifs at h with h1 h2 h3
  exact ⟨Nat.le_of_not_lt h1, Nat.le_of_not_lt h2, h3, (Option.some.inj h).symm⟩

theorem scoreIndex_threshold_mono {t₁ t₂ : ℚ} (h : t₁ ≤ t₂) (wd mh : ℕ)
    (kn : Option (List String)) (scens : List ScenarioRow) (now k : String)
    (series : List FactRow) (i : ℕ) (r : AnomalyRow)
    (hs : scoreIndex ⟨t₂, wd, mh, kn⟩ scens now k series i = some r) :
    scoreIndex ⟨t₁, wd, mh, kn⟩ scens now k series i = some r := by
  unfold scoreIndex at hs ⊢
  dsimp only at hs ⊢
  split_ifs at hs with h1 h2 h3
  have ht : ((t₁ : ℚ) : ℝ) ≤ ((t₂ : ℚ) : ℝ) := by exact_mod_cast h
  rw [if_neg h1, if_neg h2, if_pos (lt_of_le_of_lt ht h3)]
  exact hs

theorem scoreIndex_map_erase (p : Params) (scens : List ScenarioRow) (now₁ now₂ k : String)
    (series : List FactRow) (i : ℕ) :
    (scoreIndex p scens now₁ k series i).map eraseCreated =
    (scoreIndex p scens now₂ k series i).map eraseCreated := by
  unfold scoreIndex
  dsimp only
  split_ifs <;> simp [eraseCreated]

theorem mem_recomputeOut {rows : List FactRow} {scens : List ScenarioRow} {p : Params}
    {now : String} {r : AnomalyRow} (h : r ∈ recomputeOut rows scens p now) :
    ∃ k i, k ∈ kpiList rows ∧
      scoreIndex p scens now k (seriesOf rows k) i = some r := by
  unfold recomputeOut at h
  rcases List.mem_flatMap.mp h with ⟨k, hk, hmem⟩
  rcases List.mem_filterMap.mp hmem with ⟨i, _, hsc⟩
  exact ⟨k, i, hk, hsc⟩

theorem recomputeOut_map_erase (rows : List FactRow) (scens : List ScenarioRow)
    (p : Params) (now₁ now₂ : String) :
    (recomputeOut rows scens p now₁).map eraseCreated =
    (recomputeOut rows scens p now₂).map eraseCreated := by
  unfold recomputeOut
  rw [List.map_flatMap, List.map_flatMap]
  congr 1
  funext k
  rw [List.map_filterMap, List.map_filterMap]
  congr 1
  funext i
  exact scoreIndex_map_erase p scens now₁ now₂ k (seriesOf rows k) i

theorem pyRoundQ_zero (n : ℕ) : pyRoundQ n 0 = 0 := by
  norm_num [pyRoundQ, roundHalfEvenQ]

theorem rawScore_zero_one : rawScore [(0:ℚ)] 1 = 1e9 := by
  have h0 : median [(0:ℚ)] = 0 := by norm_num [median, sortBy, insertBy]
  have h1 : popVar [(0:ℚ)] = 0 := by norm_num [popVar, meanQ]
  unfold rawScore
  dsimp only
  simp only [h0, List.map_cons, List.map_nil, sub_zero, abs_zero, if_true]
  rw [h1]
  norm_num [Real.sqrt_zero]

theorem recompute_dbEx (now : String) : (recompute dbEx pEx now).1 = [rEx now] := by
  have hq : queryFacts dbEx.fact_kpi_daily pEx.kpi_names = [⟨"a", 0, 0⟩, ⟨"a", 1, 1⟩] := by
    simp [queryFacts, dbEx, pEx, sortBy, insertBy, factLe]
  have hk : kpiList [(⟨"a", 0, 0⟩ : FactRow), ⟨"a", 1, 1⟩] = ["a"] := by decide
  have hst : seriesOf [(⟨"a", 0, 0⟩ : FactRow), ⟨"a", 1, 1⟩] "a" =
      [⟨"a", 0, 0⟩, ⟨"a", 1, 1⟩] := by decide
  have h0 : scoreIndex pEx [] now "a" [⟨"a", 0, 0⟩, ⟨"a", 1, 1⟩] 0 = none := by
    unfold scoreIndex
    rw [if_pos (by decide : 0 < pEx.min_history)]
  have hh : (historyAt [(⟨"a", 0, 0⟩ : FactRow), ⟨"a", 1, 1⟩] pEx.window_days 1).map
      FactRow.value = [(0:ℚ)] := by decide
  have hc : List.getD [(⟨"a", 0, 0⟩ : FactRow), ⟨"a", 1, 1⟩] 1 defaultFactRow =
      ⟨"a", 1, 1⟩ := by decide
  have hpos : ((pEx.threshold : ℚ) : ℝ) < rawScore [(0:ℚ)] 1 := by
    rw [rawScore_zero_one]
    norm_num [pEx]
  have h1 : scoreIndex pEx [] now "a" [⟨"a", 0, 0⟩, ⟨"a", 1, 1⟩] 1 = some (rEx now) := by
    unfold scoreIndex
    dsimp only
    rw [if_neg (by decide : ¬ 1 < pEx.min_history),
      if_neg (by decide :
        ¬ (historyAt [(⟨"a", 0, 0⟩ : FactRow), ⟨"a", 1, 1⟩] pEx.window_days 1).length <
          pEx.min_history)]
    rw [hh, hc]
    rw [if_pos hpos]
    unfold rEx
    norm_num [median, sortBy, insertBy, pyRoundQ, roundHalfEvenQ, scenarioLookup]
  unfold recompute
  dsimp only
  rw [if_neg (by rw [hq]; exact fun hcon => List.noConfusion hcon)]
  unfold recomputeOut
  rw [hq, hk]
  rw [show dbEx.scenario_registry = [] from rfl]
  simp only [List.flatMap_cons, List.flatMap_nil, List.append_nil]
  rw [hst]
  rw [show List.range (List.length [(⟨"a", 0, 0⟩ : FactRow), ⟨"a", 1, 1⟩]) = [0, 1] by decide]
  simp only [List.filterMap_cons, List.filterMap_nil, h0, h1]

/-- C1 (counterexample): with the non-empty KPI filter `["a"]`, a
`recompute` call deletes the stored anomaly record of KPI `"b"`, which
lies outside the filter — contradicting the claim that records for KPIs
outside the filter remain unchanged. -/
theorem c1_counterexample :
    pC1.kpi_names = some ["a"] ∧ rB ∈ dbC1.anomalies ∧ rB.kpi_name = "b" ∧
    (recompute dbC1 pC1 "t1").2.anomalies = [] ∧
    rB ∉ (recompute dbC1 pC1 "t1").2.anomalies := by
  have hq : queryFacts dbC1.fact_kpi_daily pC1.kpi_names = [⟨"a", 0, 0⟩] := by
    simp [queryFacts, dbC1, pC1, sortBy, insertBy]
  have h0 : scoreIndex pC1 [] "t1" "a" [⟨"a", 0, 0⟩] 0 = none := by
    unfold scoreIndex
    rw [if_pos (by decide : 0 < pC1.min_history)]
  have hmain : (recompute dbC1 pC1 "t1").2.anomalies = [] := by
    unfold recompute
    dsimp only
    rw [if_neg (by rw [hq]; exact fun hcon => List.noConfusion hcon)]
    dsimp only
    unfold recomputeOut
    rw [hq]
    rw [show kpiList [(⟨"a", 0, 0⟩ : FactRow)] = ["a"] from by decide]
    rw [show dbC1.scenario_registry = [] from rfl]
    simp only [List.flatMap_cons, List.flatMap_nil, List.append_nil]
    rw [show seriesOf [(⟨"a", 0, 0⟩ : FactRow)] "a" = [⟨"a", 0, 0⟩] from by decide]
    rw [show List.range (List.length [(⟨"a", 0, 0⟩ : FactRow)]) = [0] from by decide]
    simp only [List.filterMap_cons, List.filterMap_nil, h0]
  exact ⟨rfl, List.mem_singleton.mpr rfl, rfl, hmain,
    by rw [hmain]; exact List.not_mem_nil rB⟩

/-- C1 (amended): whenever the (possibly filtered) input frame is
non-empty, `recompute` replaces the entire anomaly store with exactly the
flagged set of this call — records for KPIs outside the filter are
deleted, not preserved — and the new store does not depend on the prior
anomaly table at all. -/
theorem c1_recompute_replaces_entire_store (db : DB) (p : Params) (now : String)
    (A : List AnomalyRow) (h : queryFacts db.fact_kpi_daily p.kpi_names ≠ []) :
    (recompute db p now).2.anomalies = (recompute db p now).1 ∧
    (recompute { db with anomalies := A } p now).2.anomalies =
      (recompute db p now).2.anomalies := by
  unfold recompute
  dsimp only
  rw [if_neg h, if_neg h]
  exact ⟨rfl, rfl⟩

theorem c1_recompute_replaces_entire_store_witness :
    queryFacts dbC1.fact_kpi_daily pC1.kpi_names ≠ [] ∧
    ((recompute dbC1 pC1 "t1").2.anomalies = (recompute dbC1 pC1 "t1").1 ∧
      (recompute { dbC1 with anomalies := [] } pC1 "t1").2.anomalies =
        (recompute dbC1 pC1 "t1").2.anomalies) := by
  have h : queryFacts dbC1.fact_kpi_daily pC1.kpi_names ≠ [] := by
    simp [queryFacts, dbC1, pC1, sortBy, insertBy]
  exact ⟨h, c1_recompute_replaces_entire_store dbC1 pC1 "t1" [] h⟩

/-- C3 (counterexample): two runs of `recompute` on the same store and
parameters but at different wall-clock instants produce different record
lists — the persisted `created_at` field differs, so the anomaly sets are
not identical in every persisted field. -/
theorem c3_counterexample : (recompute dbEx pEx "t1").1 ≠ (recompute dbEx pEx "t2").1 := by
  rw [recompute_dbEx, recompute_dbEx]
  simp [rEx, AnomalyRow.mk.injEq]

/-- C3 (amended): for a fixed store and parameters, two runs of
`recompute` agree on every record field except `created_at`, which
records each run's wall-clock reading; there is no other run-to-run
variation. -/
theorem c3_deterministic_modulo_created_at (db : DB) (p : Params) (now₁ now₂ : String) :
    (recompute db p now₁).1.map eraseCreated = (recompute db p now₂).1.map eraseCreated ∧
    (recompute db p now₁).2.anomalies.map eraseCreated =
      (recompute db p now₂).2.anomalies.map eraseCreated ∧
    ∀ r ∈ (recompute db p now₁).1, r.created_at = now₁ := by
  unfold recompute
  dsimp only
  by_cases h : queryFacts db.fact_kpi_daily p.kpi_names = []
  · rw [if_pos h, if_pos h]
    exact ⟨rfl, rfl, fun r hr => absurd hr (List.not_mem_nil r)⟩
  · rw [if_neg h, if_neg h]
    dsimp only
    refine ⟨recomputeOut_map_erase _ _ _ _ _, recomputeOut_map_erase _ _ _ _ _, ?_⟩
    intro r hr
    rcases mem_recomputeOut hr with ⟨k, i, -, hsc⟩
    rcases scoreIndex_eq_some hsc with ⟨-, -, -, rfl⟩
    rfl

theorem c3_deterministic_modulo_created_at_witness :
    (recompute dbEx pEx "t1").1.map eraseCreated = (recompute dbEx pEx "t2").1.map eraseCreated ∧
    (recompute dbEx pEx "t1").2.anomalies.map eraseCreated =
      (recompute dbEx pEx "t2").2.anomalies.map eraseCreated ∧
    ∀ r ∈ (recompute dbEx pEx "t1").1, r.created_at = "t1" :=
  c3_deterministic_modulo_created_at dbEx pEx "t1" "t2"

/-- C4 (counterexample): with an empty input frame and a non-empty stored
anomaly table, `recompute` returns early and performs no store mutation at
all — in particular the claimed `DELETE FROM anomalies` does not happen,
so the anomaly table stays non-empty. -/
theorem c4_counterexample :
    queryFacts dbC4.fact_kpi_daily pC4.kpi_names = [] ∧
    (recompute dbC4 pC4 "t1").1 = [] ∧
    (recompute dbC4 pC4 "t1").2.anomalies = [rB] ∧
    ([rB] : List AnomalyRow) ≠ [] :=
  ⟨rfl, rfl, rfl, by simp⟩

/-- C4 (amended): when no KPI observation matches the query/filter, the
result is the empty list and the store is left entirely untouched — the
early return happens before the delete, so not even the delete of the
anomaly table is performed. -/
theorem c4_empty_input_no_mutation (db : DB) (p : Params) (now : String)
    (h : queryFacts db.fact_kpi_daily p.kpi_names = []) :
    recompute db p now = ([], db) := by
  unfold recompute
  dsimp only
  rw [if_pos h]

theorem c4_empty_input_no_mutation_witness :
    queryFacts dbC4.fact_kpi_daily pC4.kpi_names = [] ∧
    recompute dbC4 pC4 "t0" = ([], dbC4) :=
  ⟨rfl, c4_empty_input_no_mutation dbC4 pC4 "t0" rfl⟩

/-- C9: for the same store, window, history requirement and filter,
raising the threshold from `t₁` to `t₂` can only shrink the flagged set:
the `t₂` output is a sublist of the `t₁` output (the records themselves
do not depend on the threshold), so the flagged count cannot increase. -/
theorem c9_threshold_monotone (db : DB) (wd mh : ℕ) (kn : Option (List String))
    (now : String) (t₁ t₂ : ℚ) (h : t₁ ≤ t₂) :
    ((recompute db ⟨t₂, wd, mh, kn⟩ now).1).Sublist ((recompute db ⟨t₁, wd, mh, kn⟩ now).1) ∧
    ((recompute db ⟨t₂, wd, mh, kn⟩ now).1).length ≤
      ((recompute db ⟨t₁, wd, mh, kn⟩ now).1).length := by
  have hsub : ((recompute db ⟨t₂, wd, mh, kn⟩ now).1).Sublist
      ((recompute db ⟨t₁, wd, mh, kn⟩ now).1) := by
    unfold recompute
    dsimp only
    by_cases hf : queryFacts db.fact_kpi_daily kn = []
    · rw [if_pos hf, if_pos hf]
    · rw [if_neg hf, if_neg hf]
      dsimp only
      unfold recomputeOut
      apply flatMap_sublist
      intro k
      apply filterMap_sublist
      intro i r hr
      exact scoreIndex_threshold_mono h wd mh kn _ now k _ i r hr
  exact ⟨hsub, hsub.length_le⟩

theorem c9_threshold_monotone_witness :
    (0:ℚ) ≤ 1 ∧
    (((recompute dbEx ⟨1, 1, 1, none⟩ "t0").1).Sublist
        ((recompute dbEx ⟨0, 1, 1, none⟩ "t0").1) ∧
      ((recompute dbEx ⟨1, 1, 1, none⟩ "t0").1).length ≤
        ((recompute dbEx ⟨0, 1, 1, none⟩ "t0").1).length) :=
  ⟨by norm_num, c9_threshold_monotone dbEx 1 1 none "t0" 0 1 (by norm_num)⟩

/-- C6: every record flagged by `recompute` comes from an index of its
KPI's date-sorted series that passed both skip guards — the index is at
least `min_history` and the trailing window holds at least `min_history`
observations — and its anomaly score is non-negative and strictly above
the threshold; the persisted `score` field is that score rounded to 4
decimal places, itself non-negative. -/
theorem c6_flagged_record_invariants (db : DB) (p : Params) (now : String)
    (_hmh : 1 ≤ p.min_history) :
    ∀ r ∈ (recompute db p now).1,
      ∃ i, p.min_history ≤ i ∧
        p.min_history ≤
          (historyAt (seriesOf (queryFacts db.fact_kpi_daily p.kpi_names) r.kpi_name)
            p.window_days i).length ∧
        0 ≤ scoreAt (seriesOf (queryFacts db.fact_kpi_daily p.kpi_names) r.kpi_name)
            p.window_days i ∧
        (p.threshold : ℝ) <
          scoreAt (seriesOf (queryFacts db.fact_kpi_daily p.kpi_names) r.kpi_name)
            p.window_days i ∧
        r.score =
          pyRound 4
            (scoreAt (seriesOf (queryFacts db.fact_kpi_daily p.kpi_names) r.kpi_name)
              p.window_days i) ∧
        0 ≤ r.score := by
  intro r hr
  unfold recompute at hr
  dsimp only at hr
  by_cases hf : queryFacts db.fact_kpi_daily p.kpi_names = []
  · rw [if_pos hf] at hr
    exact absurd hr (List.not_mem_nil r)
  · rw [if_neg hf] at hr
    dsimp only at hr
    rcases mem_recomputeOut hr with ⟨k, i, -, hsc⟩
    rcases scoreIndex_eq_some hsc with ⟨h1, h2, h3, hrec⟩
    subst hrec
    exact ⟨i, h1, h2, rawScore_nonneg _ _, h3, rfl,
      pyRound_nonneg 4 (rawScore_nonneg _ _)⟩

theorem c6_flagged_record_invariants_witness :
    1 ≤ pEx.min_history ∧
    rEx "t0" ∈ (recompute dbEx pEx "t0").1 ∧
    (∃ i, pEx.min_history ≤ i ∧
      pEx.min_history ≤
        (historyAt (seriesOf (queryFacts dbEx.fact_kpi_daily pEx.kpi_names)
          (rEx "t0").kpi_name) pEx.window_days i).length ∧
      0 ≤ scoreAt (seriesOf (queryFacts dbEx.fact_kpi_daily pEx.kpi_names)
          (rEx "t0").kpi_name) pEx.window_days i ∧
      (pEx.threshold : ℝ) <
        scoreAt (seriesOf (queryFacts dbEx.fact_kpi_daily pEx.kpi_names)
          (rEx "t0").kpi_name) pEx.window_days i ∧
      (rEx "t0").score =
        pyRound 4
          (scoreAt (seriesOf (queryFacts dbEx.fact_kpi_daily pEx.kpi_names)
            (rEx "t0").kpi_name) pEx.window_days i) ∧
      0 ≤ (rEx "t0").score) := by
  have hmem : rEx "t0" ∈ (recompute dbEx pEx "t0").1 := by
    rw [recompute_dbEx]
    exact List.mem_singleton.mpr rfl
  exact ⟨by decide, hmem,
    c6_flagged_record_invariants dbEx pEx "t0" (by decide) (rEx "t0") hmem⟩

/-- C2: at every index `i` of a date-sorted KPI series that passes the
window guard, the scorer's trailing slice is exactly the window
`[max(0, i - window_days), i)`, the baseline is the window median, the
MAD is the median of absolute deviations from that baseline, and the
score is `|current - baseline|` divided by `1.4826 * MAD`, falling back
to the population standard deviation (`ddof = 0`) when MAD is zero and to
the fixed `1e-9` when that standard deviation is also zero (the standard
deviation is positive exactly when the population variance is). -/
theorem c2_score_formula (series : List FactRow) (w mh i : ℕ)
    (_hmh : 1 ≤ mh) (_hi : mh ≤ i) (_hlen : i < series.length)
    (_hwin : mh ≤ (windowAt (series.map FactRow.value) w i).length) :
    (historyAt series w i).map FactRow.value = windowAt (series.map FactRow.value) w i ∧
    (madOf (windowAt (series.map FactRow.value) w i) ≠ 0 →
      scoreAt series w i =
        |(curValue series i : ℝ) - (median (windowAt (series.map FactRow.value) w i) : ℝ)| /
          (1.4826 * (madOf (windowAt (series.map FactRow.value) w i) : ℝ))) ∧
    (madOf (windowAt (series.map FactRow.value) w i) = 0 →
      0 < popStd (windowAt (series.map FactRow.value) w i) →
      scoreAt series w i =
        |(curValue series i : ℝ) - (median (windowAt (series.map FactRow.value) w i) : ℝ)| /
          popStd (windowAt (series.map FactRow.value) w i)) ∧
    (madOf (windowAt (series.map FactRow.value) w i) = 0 →
      popStd (windowAt (series.map FactRow.value) w i) = 0 →
      scoreAt series w i =
        |(curValue series i : ℝ) - (median (windowAt (series.map FactRow.value) w i) : ℝ)| /
          1e-9) ∧
    (0 < popStd (windowAt (series.map FactRow.value) w i) ↔
      0 < popVar (windowAt (series.map FactRow.value) w i)) := by
  have hwv : (historyAt series w i).map FactRow.value =
      windowAt (series.map FactRow.value) w i := by
    simp [historyAt, windowAt, List.map_take, List.map_drop]
  set win := windowAt (series.map FactRow.value) w i with hwin_def
  have hscore : scoreAt series w i = rawScore win (curValue series i) := by
    unfold scoreAt
    rw [hwv]
    rfl
  have hiff : 0 < popStd win ↔ 0 < popVar win := by
    unfold popStd
    rw [Real.sqrt_pos]
    exact ⟨fun h => by exact_mod_cast h, fun h => by exact_mod_cast h⟩
  refine ⟨hwv, ?_, ?_, ?_, hiff⟩
  · intro hm
    rw [hscore]
    unfold rawScore
    dsimp only
    rw [if_neg (by unfold madOf at hm; exact hm)]
    rfl
  · intro hm hstd
    rw [hscore]
    unfold rawScore
    dsimp only
    rw [if_pos (by unfold madOf at hm; exact hm),
      if_pos (by unfold popStd at hstd; exact hstd)]
    rfl
  · intro hm hstd
    rw [hscore]
    unfold rawScore
    dsimp only
    rw [if_pos (by unfold madOf at hm; exact hm),
      if_neg (by unfold popStd at hstd; rw [hstd]; exact lt_irrefl 0)]

theorem c2_score_formula_witness :
    ((1:ℕ) ≤ 1 ∧ 1 ≤ 2 ∧ 2 < seriesEx.length ∧
      1 ≤ (windowAt (seriesEx.map FactRow.value) 2 2).length) ∧
    ((historyAt seriesEx 2 2).map FactRow.value = windowAt (seriesEx.map FactRow.value) 2 2 ∧
      (madOf (windowAt (seriesEx.map FactRow.value) 2 2) ≠ 0 →
        scoreAt seriesEx 2 2 =
          |(curValue seriesEx 2 : ℝ) -
              (median (windowAt (seriesEx.map FactRow.value) 2 2) : ℝ)| /
            (1.4826 * (madOf (windowAt (seriesEx.map FactRow.value) 2 2) : ℝ))) ∧
      (madOf (windowAt (seriesEx.map FactRow.value) 2 2) = 0 →
        0 < popStd (windowAt (seriesEx.map FactRow.value) 2 2) →
        scoreAt seriesEx 2 2 =
          |(curValue seriesEx 2 : ℝ) -
              (median (windowAt (seriesEx.map FactRow.value) 2 2) : ℝ)| /
            popStd (windowAt (seriesEx.map FactRow.value) 2 2)) ∧
      (madOf (windowAt (seriesEx.map FactRow.value) 2 2) = 0 →
        popStd (windowAt (seriesEx.map FactRow.value) 2 2) = 0 →
        scoreAt seriesEx 2 2 =
          |(curValue seriesEx 2 : ℝ) -
              (median (windowAt (seriesEx.map FactRow.value) 2 2) : ℝ)| /
            1e-9) ∧
      (0 < popStd (windowAt (seriesEx.map FactRow.value) 2 2) ↔
        0 < popVar (windowAt (seriesEx.map FactRow.value) 2 2))) :=
  ⟨⟨by decide, by decide, by decide, by decide⟩,
    c2_score_formula seriesEx 2 1 2 (by decide) (by decide) (by decide) (by decide)⟩

theorem rate_path_facts (conn : DriversConn) (kpi : String) (target : ℤ)
    (bdays topn : ℕ)
    (hk : kpi = "sla_breach_rate_pct" ∨ kpi = "exception_rate_per_100_jobs") :
    (compute_top_drivers conn kpi target bdays topn).evidence =
      (rateDimResults conn kpi target bdays).map (fun x => x.2) ∧
    (rateAllRows conn kpi target bdays = [] →
      (compute_top_drivers conn kpi target bdays topn).drivers = []) ∧
    (rateAllRows conn kpi target bdays ≠ [] →
      (compute_top_drivers conn kpi target bdays topn).drivers =
        (sortBy rankLe
          (if (rateAllRows conn kpi target bdays).filter
              (fun r => decide (0 < r.delta_abs) && decide (0 < r.contribution_share)) = []
          then rateAllRows conn kpi target bdays
          else (rateAllRows conn kpi target bdays).filter
              (fun r => decide (0 < r.delta_abs) && decide (0 < r.contribution_share)))).take
          topn) := by
  have hdisp : compute_top_drivers conn kpi target bdays topn =
      analyze_rate_kpi conn kpi target bdays topn := by
    unfold compute_top_drivers
    rw [if_pos hk]
  refine ⟨?_, ?_, ?_⟩
  · rw [hdisp]
    unfold analyze_rate_kpi
    dsimp only
    rw [apply_ite AttrResult.evidence]
    dsimp only
    rw [ite_self]
  · intro h0
    rw [hdisp]
    unfold analyze_rate_kpi
    dsimp only
    unfold rateAllRows at h0
    rw [if_pos h0]
  · intro h0
    rw [hdisp]
    unfold analyze_rate_kpi
    dsimp only
    unfold rateAllRows at h0 ⊢
    rw [if_neg h0]

/-- C10: for both supported rate KPIs, attribution returns exactly six
evidence entries, one per configured dimension, in the fixed declared
order `site, customer_tier, category, incident_type, carrier,
product_family` — for every oracle, including one whose queries return no
rows at all. -/
theorem c10_rate_evidence_dimensions (conn : DriversConn) (kpi : String) (target : ℤ)
    (baseline_days top_n : ℕ)
    (hk : kpi = "sla_breach_rate_pct" ∨ kpi = "exception_rate_per_100_jobs") :
    ((compute_top_drivers conn kpi target baseline_days top_n).evidence).map
        EvidenceEntry.dimension =
      ["site", "customer_tier", "category", "incident_type", "carrier",
        "product_family"] := by
  rw [(rate_path_facts conn kpi target baseline_days top_n hk).1]
  rcases hk with h | h <;> subst h <;>
    simp [rateDimResults, dimension_configs_for_kpi]

theorem c10_rate_evidence_dimensions_witness :
    ("sla_breach_rate_pct" = "sla_breach_rate_pct" ∨
      "sla_breach_rate_pct" = "exception_rate_per_100_jobs") ∧
    ((compute_top_drivers connEmpty "sla_breach_rate_pct" 0 14 3).evidence).map
        EvidenceEntry.dimension =
      ["site", "customer_tier", "category", "incident_type", "carrier",
        "product_family"] :=
  ⟨Or.inl rfl,
    c10_rate_evidence_dimensions connEmpty "sla_breach_rate_pct" 0 14 3 (Or.inl rfl)⟩

/-- C5: when the pooled per-dimension rows of a supported rate KPI are
non-empty, the final drivers list is obtained by restricting the pool to
rows with positive `delta_abs` and positive `contribution_share` (falling
back to the whole pool when that restriction is empty), stably sorting
the chosen pool in the descending order of
`(|contribution_share| * |delta_abs|, contribution_share, delta_abs)`
encoded by `rankLe`, and taking the first `top_n` rows. -/
theorem c5_rate_ranking (conn : DriversConn) (kpi : String) (target : ℤ)
    (baseline_days top_n : ℕ)
    (hk : kpi = "sla_breach_rate_pct" ∨ kpi = "exception_rate_per_100_jobs")
    (hne : rateAllRows conn kpi target baseline_days ≠ []) :
    (compute_top_drivers conn kpi target baseline_days top_n).drivers =
      (sortBy rankLe
        (if (rateAllRows conn kpi target baseline_days).filter
            (fun r => decide (0 < r.delta_abs) && decide (0 < r.contribution_share)) = []
        then rateAllRows conn kpi target baseline_days
        else (rateAllRows conn kpi target baseline_days).filter
            (fun r => decide (0 < r.delta_abs) && decide (0 < r.contribution_share)))).take
        top_n :=
  (rate_path_facts conn kpi target baseline_days top_n hk).2.2 hne

theorem c5_rate_ranking_witness :
    (("sla_breach_rate_pct" = "sla_breach_rate_pct" ∨
        "sla_breach_rate_pct" = "exception_rate_per_100_jobs") ∧
      rateAllRows connOne "sla_breach_rate_pct" 0 14 ≠ []) ∧
    (compute_top_drivers connOne "sla_breach_rate_pct" 0 14 3).drivers =
      (sortBy rankLe
        (if (rateAllRows connOne "sla_breach_rate_pct" 0 14).filter
            (fun r => decide (0 < r.delta_abs) && decide (0 < r.contribution_share)) = []
        then rateAllRows connOne "sla_breach_rate_pct" 0 14
        else (rateAllRows connOne "sla_breach_rate_pct" 0 14).filter
            (fun r => decide (0 < r.delta_abs) && decide (0 < r.contribution_share)))).take
        3 := by
  have hne : rateAllRows connOne "sla_breach_rate_pct" 0 14 ≠ [] := by
    simp [rateAllRows, rateDimResults, dimension_configs_for_kpi, build_driver_rows,
      mergeOuter, groupMeanSeg, sortBy, insertBy, segKey, connOne]
  exact ⟨⟨Or.inl rfl, hne⟩,
    c5_rate_ranking connOne "sla_breach_rate_pct" 0 14 3 (Or.inl rfl) hne⟩

/-- C8: an unsupported KPI yields exactly the empty result
`{drivers: [], evidence: []}`; a supported rate KPI whose pooled rows are
empty yields empty drivers but one evidence entry per configured
dimension; the data-quality KPI always yields one evidence entry (its one
inline `site` dimension); hence the evidence list is empty if and only if
the KPI is unsupported. -/
theorem c8_unsupported_vs_evidence (conn : DriversConn) (kpi : String) (target : ℤ)
    (baseline_days top_n : ℕ) :
    (¬ supportedKPI kpi →
      compute_top_drivers conn kpi target baseline_days top_n = ⟨[], []⟩) ∧
    ((kpi = "sla_breach_rate_pct" ∨ kpi = "exception_rate_per_100_jobs") →
      ((compute_top_drivers conn kpi target baseline_days top_n).evidence.length =
          (dimension_configs_for_kpi kpi).length ∧
        (rateAllRows conn kpi target baseline_days = [] →
          (compute_top_drivers conn kpi target baseline_days top_n).drivers = []))) ∧
    (kpi = "data_quality_score" →
      (compute_top_drivers conn kpi target baseline_days top_n).evidence.length = 1) ∧
    ((compute_top_drivers conn kpi target baseline_days top_n).evidence = [] ↔
      ¬ supportedKPI kpi) := by
  by_cases hrate : kpi = "sla_breach_rate_pct" ∨ kpi = "exception_rate_per_100_jobs"
  · have hsup : supportedKPI kpi := by
      rcases hrate with h | h
      · exact Or.inl h
      · exact Or.inr (Or.inl h)
    have hev := (rate_path_facts conn kpi target baseline_days top_n hrate).1
    have hlen : (compute_top_drivers conn kpi target baseline_days top_n).evidence.length
        = (dimension_configs_for_kpi kpi).length := by
      rw [hev]
      simp [rateDimResults]
    have hevne : (compute_top_drivers conn kpi target baseline_days top_n).evidence ≠ [] := by
      intro hcon
      rw [hcon] at hlen
      rcases hrate with h | h <;> subst h <;>
        simp [dimension_configs_for_kpi] at hlen
    refine ⟨fun hns => absurd hsup hns, fun _ =>
        ⟨hlen, (rate_path_facts conn kpi target baseline_days top_n hrate).2.1⟩,
      fun hdq => ?_, ⟨fun hcon => absurd hcon hevne, fun hns => absurd hsup hns⟩⟩
    · exfalso
      rcases hrate with h | h <;> rw [h] at hdq <;> exact absurd hdq (by decide)
  · by_cases hdq : kpi = "data_quality_score"
    · subst hdq
      have hsup : supportedKPI "data_quality_score" := Or.inr (Or.inr rfl)
      have hdisp : compute_top_drivers conn "data_quality_score" target baseline_days top_n
          = analyze_data_quality conn target baseline_days top_n := by
        unfold compute_top_drivers
        rw [if_neg (by decide), if_pos rfl]
      have hlen1 : (compute_top_drivers conn "data_quality_score" target
          baseline_days top_n).evidence.length = 1 := by
        rw [hdisp]
        unfold analyze_data_quality
        dsimp only
        rfl
      refine ⟨fun hns => absurd hsup hns,
        fun hcon => absurd hcon (by decide), fun _ => hlen1, ?_⟩
      constructor
      · intro hcon
        rw [hcon] at hlen1
        simp at hlen1
      · intro hns
        exact absurd hsup hns
    · have hns : ¬ supportedKPI kpi := by
        intro hsup
        rcases hsup with h | h | h
        · exact hrate (Or.inl h)
        · exact hrate (Or.inr h)
        · exact hdq h
      have hres : compute_top_drivers conn kpi target baseline_days top_n = ⟨[], []⟩ := by
        unfold compute_top_drivers
        rw [if_neg hrate, if_neg hdq]
      refine ⟨fun _ => hres, fun hcon => absurd hcon hrate,
        fun hcon => absurd hcon hdq, ?_⟩
      rw [hres]
      exact ⟨fun _ => hns, fun _ => rfl⟩

theorem c8_unsupported_vs_evidence_witness :
    ¬ supportedKPI "on_time_delivery_pct" ∧
    compute_top_drivers connEmpty "on_time_delivery_pct" 0 14 3 = ⟨[], []⟩ :=
  ⟨by decide,
    (c8_unsupported_vs_evidence connEmpty "on_time_delivery_pct" 0 14 3).1 (by decide)⟩

/-- C7: every row produced by `_build_driver_rows` arises from one merged
segment and satisfies: the `anomaly_rate`/`baseline_rate` stats are the
safe ratios — zero whenever the corresponding denominator is zero;
`delta_pct` is `none` whenever the baseline rate is not strictly
positive; and `contribution_share` is a total, always-defined rational
(hence finite), equal to zero whenever the dimension's total numerator
delta is zero. -/
theorem c7_rate_row_safety (dim : String) (a b : List SegRow) (tn : ℕ) :
    ∀ r ∈ (build_driver_rows dim a b tn).1,
      ∃ m ∈ mergeOuter a (groupMeanSeg b), ∃ s : RateStats,
        r = driverRowOf dim (dimTotalDelta a b) m ∧
        r.supporting_stats = StatsBlob.rate s ∧
        (m.a_den = 0 → s.anomaly_rate = 0) ∧
        (m.b_den = 0 → s.baseline_rate = 0) ∧
        (¬ 0 < safe_rate m.b_num m.b_den → r.delta_pct = none) ∧
        (dimTotalDelta a b = 0 → r.contribution_share = 0) ∧
        r.contribution_share =
          pyRoundQ 6 (if dimTotalDelta a b = 0 then 0
            else (m.a_num - m.b_num) / dimTotalDelta a b) := by
  intro r hr
  unfold build_driver_rows at hr
  dsimp only at hr
  rw [apply_ite Prod.fst] at hr
  dsimp only at hr
  split at hr
  · exact absurd hr (List.not_mem_nil r)
  · rcases List.mem_map.mp hr with ⟨m, hm, rfl⟩
    refine ⟨m, hm, ⟨pyRoundQ 4 m.a_num, pyRoundQ 4 m.a_den, pyRoundQ 4 m.b_num,
        pyRoundQ 4 m.b_den, pyRoundQ 6 (safe_rate m.a_num m.a_den),
        pyRoundQ 6 (safe_rate m.b_num m.b_den)⟩, rfl, rfl, ?_, ?_, ?_, ?_, rfl⟩
    · intro h
      dsimp only
      rw [h]
      simp [safe_rate, pyRoundQ_zero]
    · intro h
      dsimp only
      rw [h]
      simp [safe_rate, pyRoundQ_zero]
    · intro hnp
      unfold driverRowOf
      dsimp only
      rw [if_neg hnp]
    · intro h
      unfold driverRowOf
      dsimp only
      rw [if_pos h, pyRoundQ_zero]

theorem c7_rate_row_safety_witness :
    driverRowOf "site" (dimTotalDelta [⟨none, 1, 0⟩] []) ⟨"Unknown", 1, 0, 0, 0⟩ ∈
      (build_driver_rows "site" [⟨none, 1, 0⟩] [] 5).1 ∧
    (∃ m ∈ mergeOuter [⟨none, 1, 0⟩] (groupMeanSeg []), ∃ s : RateStats,
      driverRowOf "site" (dimTotalDelta [⟨none, 1, 0⟩] []) ⟨"Unknown", 1, 0, 0, 0⟩ =
        driverRowOf "site" (dimTotalDelta [⟨none, 1, 0⟩] []) m ∧
      (driverRowOf "site" (dimTotalDelta [⟨none, 1, 0⟩] [])
          ⟨"Unknown", 1, 0, 0, 0⟩).supporting_stats = StatsBlob.rate s ∧
      (m.a_den = 0 → s.anomaly_rate = 0) ∧
      (m.b_den = 0 → s.baseline_rate = 0) ∧
      (¬ 0 < safe_rate m.b_num m.b_den →
        (driverRowOf "site" (dimTotalDelta [⟨none, 1, 0⟩] [])
          ⟨"Unknown", 1, 0, 0, 0⟩).delta_pct = none) ∧
      (dimTotalDelta [⟨none, 1, 0⟩] [] = 0 →
        (driverRowOf "site" (dimTotalDelta [⟨none, 1, 0⟩] [])
          ⟨"Unknown", 1, 0, 0, 0⟩).contribution_share = 0) ∧
      (driverRowOf "site" (dimTotalDelta [⟨none, 1, 0⟩] [])
          ⟨"Unknown", 1, 0, 0, 0⟩).contribution_share =
        pyRoundQ 6 (if dimTotalDelta [⟨none, 1, 0⟩] [] = 0 then 0
          else (m.a_num - m.b_num) / dimTotalDelta [⟨none, 1, 0⟩] [])) := by
  have hmem : driverRowOf "site" (dimTotalDelta [⟨none, 1, 0⟩] [])
      ⟨"Unknown", 1, 0, 0, 0⟩ ∈ (build_driver_rows "site" [⟨none, 1, 0⟩] [] 5).1 := by
    simp [build_driver_rows, mergeOuter, groupMeanSeg, sortBy, insertBy, segKey]
  exact ⟨hmem, c7_rate_row_safety "site" [⟨none, 1, 0⟩] [] 5 _ hmem⟩
